import Mathlib

/-!
# WineRedDash service worker (`sw.js`)

A shallow embedding of the request router, the two caching strategies and the
activation pruning of `sw.js`, followed by the properties settled about them.

The browser platform (the `URL` parser, `fetch`, the `CacheStorage` object
`caches` and the `Cache` handles it opens) is an external collaborator.  Its
answers are supplied by a `Platform` record, and every call the code makes to
it is recorded, in order, in a list of `Effect`s.
-/

namespace WineRedDash

/-! ## Constants (`sw.js` lines 1-13) -/

/-- The legacy cache name, `CACHE_NAME` (line 1). -/
def CACHE_NAME : String := "winered-dashboard-v1.0.0"

/-- The static cache name, `STATIC_CACHE` (line 2). -/
def STATIC_CACHE : String := "winered-static-v1.0.0"

/-- The dynamic cache name, `DYNAMIC_CACHE` (line 3). -/
def DYNAMIC_CACHE : String := "winered-dynamic-v1.0.0"

/-- The files cached at install time, `STATIC_FILES` (lines 6-13). -/
def STATIC_FILES : List String :=
  [ "/",
    "/index.html",
    "/details.html",
    "https://fonts.googleapis.com/css2?family=Fahkwang:wght@400;500;600;700&family=DM+Sans:opsz,wght@9..40,300;9..40,400;9..40,500;9..40,600&display=swap",
    "https://fonts.gstatic.com/s/fahkwang/v1/NoaO6WfjJ4bqM1m1KAeV-3o.woff2",
    "https://fonts.gstatic.com/s/dmsans/v14/ieVc2o3ADXF6cFWN41vPW9a.woff2" ]

/-! ## Data model -/

/-- The components of `new URL(request.url)` that the worker reads or that
identify the request: `protocol` (with its colon), `hostname`, `pathname`
(starting with a slash) and `search` (empty, or starting with a question
mark). -/
structure URL where
  protocol : String
  hostname : String
  pathname : String
  search : String
  deriving DecidableEq, Repr

/-- The serialisation `url.href` of a URL without port, credentials or
fragment. -/
def URL.href (url : URL) : String :=
  url.protocol ++ "//" ++ url.hostname ++ url.pathname ++ url.search

/-- An intercepted request: its HTTP method and its parsed URL. -/
structure Request where
  method : String
  url : URL
  deriving DecidableEq, Repr

/-- A response: its status code and its body. -/
structure Response where
  status : Nat
  body : String
  deriving DecidableEq, Repr

/-- The flag `response.ok`: the status is in the range 200-299. -/
def Response.ok (response : Response) : Bool :=
  decide (200 ≤ response.status) && decide (response.status ≤ 299)

/-- The copy `response.clone()`: same status and body. -/
def Response.clone (response : Response) : Response := response

/-- A thrown JavaScript error (or the reason of a rejected promise). -/
structure JsError where
  message : String
  deriving DecidableEq, Repr

/-- The handle `await caches.open(cacheName)` resolves to. -/
structure Cache where
  name : String
  deriving DecidableEq, Repr

/-! ## String helpers -/

/-- Substring search on character lists: `search` occurs in `s` at some
offset. -/
def includesList : List Char → List Char → Bool
  | [], search => search.isEmpty
  | c :: cs, search => search.isPrefixOf (c :: cs) || includesList cs search

/-- The method `s.includes(search)` of JavaScript strings. -/
def includes (s search : String) : Bool :=
  includesList s.data search.data

/-! ## Platform calls and their record -/

/-- One call made to the platform. -/
inductive Effect where
  | cachesMatch (request : Request)
  | fetch (request : Request)
  | cachesOpen (cacheName : String)
  | cachePut (cacheName : String) (request : Request) (response : Response)
  deriving DecidableEq, Repr

/-- How the platform answers each call: `caches.match(request)` resolves to a
response or to `undefined` (here `none`) or rejects; `fetch(request)` resolves
to a response or rejects; `caches.open(cacheName)` resolves to the handle of
that cache unless it rejects with the given error; `cache.put` resolves or
rejects. -/
structure Platform where
  cachesMatch : Request → Except JsError (Option Response)
  fetch : Request → Except JsError Response
  cachesOpen : String → Option JsError
  cachePut : String → Request → Response → Except JsError Unit

/-- An asynchronous computation: given the calls made so far it completes with
a value or throws, and extends the record of calls. -/
def JS (α : Type) : Type := List Effect → Except JsError α × List Effect

/-- Complete with a value, making no call. -/
def JS.pure {α : Type} (a : α) : JS α := fun trace => (.ok a, trace)

/-- Sequencing (`await`): a thrown error skips the continuation. -/
def JS.bind {α β : Type} (m : JS α) (f : α → JS β) : JS β := fun trace =>
  match m trace with
  | (.ok a, trace') => f a trace'
  | (.error e, trace') => (.error e, trace')

/-- The statement `try { body } catch (error) { handler }`. -/
def JS.tryCatch {α : Type} (body : JS α) (handler : JsError → JS α) : JS α := fun trace =>
  match body trace with
  | (.ok a, trace') => (.ok a, trace')
  | (.error e, trace') => handler e trace'

instance : Monad JS where
  pure := JS.pure
  bind := JS.bind

/-- Run a computation from an empty record. -/
def JS.run {α : Type} (m : JS α) : Except JsError α × List Effect := m []

/-- The awaited call `await caches.match(request)`. -/
def cachesMatch (platform : Platform) (request : Request) : JS (Option Response) := fun trace =>
  (platform.cachesMatch request, trace ++ [Effect.cachesMatch request])

/-- The awaited call `await fetch(request)`. -/
def fetch (platform : Platform) (request : Request) : JS Response := fun trace =>
  (platform.fetch request, trace ++ [Effect.fetch request])

/-- The awaited call `await caches.open(cacheName)`. -/
def cachesOpen (platform : Platform) (cacheName : String) : JS Cache := fun trace =>
  (match platform.cachesOpen cacheName with
   | some e => .error e
   | none => .ok ⟨cacheName⟩,
   trace ++ [Effect.cachesOpen cacheName])

/-- The call `cache.put(request, response)` whose promise is not awaited: the
put is issued and its outcome, `platform.cachePut`, is never observed. -/
def cachePut (_platform : Platform) (cache : Cache) (request : Request) (response : Response) :
    JS Unit := fun trace =>
  (.ok (), trace ++ [Effect.cachePut cache.name request response])

/-- The response `new Response('Network error', { status: 503 })`. -/
def networkErrorResponse : Response := ⟨503, "Network error"⟩

/-! ## Strategies (`sw.js` lines 76-112) -/

/-- Cache first strategy, `cacheFirst` (lines 76-93). -/
def cacheFirst (platform : Platform) (request : Request) (cacheName : String) : JS Response :=
  JS.tryCatch
    (do
      let cachedResponse ← cachesMatch platform request
      match cachedResponse with
      | some cachedResponse => pure cachedResponse
      | none => do
        let networkResponse ← fetch platform request
        if networkResponse.ok then
          let cache ← cachesOpen platform cacheName
          cachePut platform cache request networkResponse.clone
        pure networkResponse)
    (fun _error => pure networkErrorResponse)

/-- Network first strategy, `networkFirst` (lines 96-112). -/
def networkFirst (platform : Platform) (request : Request) (cacheName : String) : JS Response :=
  JS.tryCatch
    (do
      let networkResponse ← fetch platform request
      if networkResponse.ok then
        let cache ← cachesOpen platform cacheName
        cachePut platform cache request networkResponse.clone
      pure networkResponse)
    (fun _error => do
      let cachedResponse ← cachesMatch platform request
      match cachedResponse with
      | some cachedResponse => pure cachedResponse
      | none => pure networkErrorResponse)

/-! ## Request router (`sw.js` lines 47-73) -/

/-- The two strategy functions a fetch event can be answered with. -/
inductive Strategy where
  | cacheFirst
  | networkFirst
  deriving DecidableEq, Repr

/-- The strategy function a `Strategy` names. -/
def Strategy.run : Strategy → Platform → Request → String → JS Response
  | .cacheFirst => WineRedDash.cacheFirst
  | .networkFirst => WineRedDash.networkFirst

/-- The decision of the fetch listener (lines 47-73): `none` when it returns
without calling `event.respondWith`, otherwise the strategy and the cache name
passed to it. -/
def fetchRoute (request : Request) : Option (Strategy × String) :=
  let url := request.url
  if request.method ≠ "GET" then
    none
  else if url.pathname = "/" ∨ includes url.pathname ".html" = true then
    some (.cacheFirst, STATIC_CACHE)
  else if includes url.pathname "fonts.googleapis.com" = true
      ∨ includes url.pathname "fonts.gstatic.com" = true then
    some (.cacheFirst, STATIC_CACHE)
  else if includes url.pathname "api.sheetbest.com" = true
      ∨ includes url.pathname "sheetdb.io" = true then
    some (.networkFirst, DYNAMIC_CACHE)
  else if includes url.pathname "dropboxusercontent.com" = true then
    some (.cacheFirst, DYNAMIC_CACHE)
  else
    some (.networkFirst, DYNAMIC_CACHE)

/-- The fetch listener: the response computation handed to
`event.respondWith`, if any. -/
def fetchListener (platform : Platform) (request : Request) : Option (JS Response) :=
  (fetchRoute request).map fun route => route.1.run platform request route.2

/-! ## Activation (`sw.js` lines 30-44) -/

/-- The callback mapped over `cacheNames` (lines 35-40): the name handed to
`caches.delete`, or `none` when the callback returns `undefined`. -/
def activateDelete (cacheName : String) : Option String :=
  if cacheName ≠ STATIC_CACHE ∧ cacheName ≠ DYNAMIC_CACHE then some cacheName else none

/-- The `caches.delete` calls issued by the activate listener for the names
`caches.keys()` resolved to, in order. -/
def activateDeletes (cacheNames : List String) : List String :=
  cacheNames.filterMap activateDelete

/-- The effect of a resolved `caches.delete(cacheName)` on the names of the
existing cache instances. -/
def cachesDelete (cacheNames : List String) (cacheName : String) : List String :=
  cacheNames.filter fun name => name ≠ cacheName

/-- The activate listener, once the promise given to `event.waitUntil` has
resolved: the deletes it issued and the names of the instances left. -/
def activateListener (cacheNames : List String) : List String × List String :=
  let deletes := activateDeletes cacheNames
  (deletes, deletes.foldl cachesDelete cacheNames)

/-! ## Observations on a record of calls -/

/-- The puts issued in a record of calls: cache name, key and stored
response of each, in order. -/
def puts (trace : List Effect) : List (String × Request × Response) :=
  trace.filterMap fun effect =>
    match effect with
    | .cachePut cacheName request response => some (cacheName, request, response)
    | _ => none

/-- The platform's `caches.match(request)` over named cache instances, each a
list of entries: the entry of the first instance, in creation order, that holds
one for the request. -/
def storeMatch (store : List (String × List (Request × Response))) (request : Request) :
    Option Response :=
  store.findSome? fun cache => cache.2.lookup request

/-- A platform whose cache store holds the given instances and never fails,
over the given network. -/
def storePlatform (store : List (String × List (Request × Response)))
    (network : Request → Except JsError Response) : Platform :=
  { cachesMatch := fun request => .ok (storeMatch store request)
    fetch := network
    cachesOpen := fun _ => none
    cachePut := fun _ _ _ => .ok () }

/-! ## Concrete requests and platforms used below -/

/-- A network that is unreachable: every fetch throws. -/
def offline : Request → Except JsError Response :=
  fun _ => .error ⟨"Failed to fetch"⟩

/-- A network that answers every request with status 200. -/
def online : Request → Except JsError Response :=
  fun _ => .ok ⟨200, "fresh"⟩

/-- A network that answers every request with status 404. -/
def notFound : Request → Except JsError Response :=
  fun _ => .ok ⟨404, "Not Found"⟩

/-- A platform whose cache store is empty and whose `caches.open` rejects,
over the given network; its puts reject as well. -/
def quotaPlatform (network : Request → Except JsError Response) : Platform :=
  { cachesMatch := fun _ => .ok none
    fetch := network
    cachesOpen := fun _ => some ⟨"QuotaExceededError"⟩
    cachePut := fun _ _ _ => .error ⟨"QuotaExceededError"⟩ }

/-- A platform whose cache store is empty and opens, but whose puts reject. -/
def putRejects (network : Request → Except JsError Response) : Platform :=
  { cachesMatch := fun _ => .ok none
    fetch := network
    cachesOpen := fun _ => none
    cachePut := fun _ _ _ => .error ⟨"QuotaExceededError"⟩ }

/-- A platform whose cache lookups reject, over the given network. -/
def brokenStore (network : Request → Except JsError Response) : Platform :=
  { cachesMatch := fun _ => .error ⟨"UnknownError"⟩
    fetch := network
    cachesOpen := fun _ => some ⟨"UnknownError"⟩
    cachePut := fun _ _ _ => .error ⟨"UnknownError"⟩ }

/-- GET of `STATIC_FILES[4]`, a font file on `fonts.gstatic.com`. -/
def fontRequest : Request :=
  ⟨"GET", ⟨"https:", "fonts.gstatic.com", "/s/fahkwang/v1/NoaO6WfjJ4bqM1m1KAeV-3o.woff2", ""⟩⟩

/-- GET of the root document of the data API host `sheetdb.io`. -/
def sheetdbRootRequest : Request :=
  ⟨"GET", ⟨"https:", "sheetdb.io", "/", ""⟩⟩

/-- GET of `https://api.sheetdb.io/data`. -/
def sheetdbDataRequest : Request :=
  ⟨"GET", ⟨"https:", "api.sheetdb.io", "/data", ""⟩⟩

/-- GET of a product image on the file host `dl.dropboxusercontent.com`. -/
def dropboxRequest : Request :=
  ⟨"GET", ⟨"https:", "dl.dropboxusercontent.com", "/s/abc123/wine.jpg", ""⟩⟩

/-- GET of `/index.html?v=2` on the dashboard's own origin. -/
def indexRequest : Request :=
  ⟨"GET", ⟨"https:", "winered.example", "/index.html", "?v=2"⟩⟩

/-- A rows response cached earlier for `https://api.sheetdb.io/data`. -/
def cachedData : Response := ⟨200, "[rows]"⟩

/-- A cache store whose dynamic cache holds `cachedData` for
`https://api.sheetdb.io/data` and whose static cache is empty. -/
def dataStore : List (String × List (Request × Response)) :=
  [(STATIC_CACHE, []), (DYNAMIC_CACHE, [(sheetdbDataRequest, cachedData)])]

/-- A cached copy of the dashboard page. -/
def cachedPage : Response := ⟨200, "<html>"⟩

/-- A cache store whose static cache holds `cachedPage` for `/index.html?v=2`
and whose dynamic cache is empty. -/
def pageStore : List (String × List (Request × Response)) :=
  [(STATIC_CACHE, [(indexRequest, cachedPage)]), (DYNAMIC_CACHE, [])]

/-! ## Substring search -/

/-- The search `includesList s search` holds exactly when `search` is a
contiguous sublist of `s`. -/
theorem includesList_iff_infix (s search : List Char) :
    includesList s search = true ↔ search <:+: s := by
  induction s with
  | nil => simp [includesList, List.isEmpty_iff]
  | cons c cs ih =>
    simp only [includesList, Bool.or_eq_true, List.infix_cons_iff, ih]
    constructor
    · rintro (h | h)
      · exact Or.inl (List.isPrefixOf_iff_prefix.mp h)
      · exact Or.inr h
    · rintro (h | h)
      · exact Or.inl (List.isPrefixOf_iff_prefix.mpr h)
      · exact Or.inr h

/-! ## Request router -/

/-- C4: every GET request whose path is `/` or contains `.html` is answered
with `cacheFirst(request, STATIC_CACHE)`, whatever its protocol, hostname and
query string and whatever else its path contains: the rule is tested first, so
no later rule can apply. -/
theorem fetchRoute_html (protocol hostname pathname search : String)
    (hpath : pathname = "/" ∨ includes pathname ".html" = true) :
    fetchRoute ⟨"GET", ⟨protocol, hostname, pathname, search⟩⟩
        = some (Strategy.cacheFirst, STATIC_CACHE)
      ∧ STATIC_CACHE = "winered-static-v1.0.0"
      ∧ ∀ platform : Platform,
          fetchListener platform ⟨"GET", ⟨protocol, hostname, pathname, search⟩⟩
            = some (cacheFirst platform ⟨"GET", ⟨protocol, hostname, pathname, search⟩⟩
                STATIC_CACHE) := by
  have hroute : fetchRoute ⟨"GET", ⟨protocol, hostname, pathname, search⟩⟩
      = some (Strategy.cacheFirst, STATIC_CACHE) := by
    simp only [fetchRoute, ne_eq, not_true_eq_false, if_false, if_pos hpath]
  refine ⟨hroute, rfl, fun platform => ?_⟩
  simp only [fetchListener, hroute, Option.map_some', Strategy.run]

/-- The rule of C4 at `/index.html?v=2`, and at a path that also names a data
API host. -/
theorem fetchRoute_html_witness :
    fetchRoute indexRequest = some (Strategy.cacheFirst, STATIC_CACHE)
      ∧ fetchRoute ⟨"GET", ⟨"https:", "sheetdb.io", "/sheetdb.io/a.html", "?q=1"⟩⟩
          = some (Strategy.cacheFirst, STATIC_CACHE) :=
  ⟨(fetchRoute_html "https:" "winered.example" "/index.html" "?v=2" (Or.inr (by decide))).1,
   (fetchRoute_html "https:" "sheetdb.io" "/sheetdb.io/a.html" "?q=1" (Or.inr (by decide))).1⟩

/-- C1: the font file `STATIC_FILES[4]` is on the host `fonts.gstatic.com`, yet
its GET request is answered with `networkFirst(request, DYNAMIC_CACHE)` and not
with `cacheFirst(request, STATIC_CACHE)`: the font rule inspects the path, which
does not contain the host name. -/
theorem fetchRoute_font_host :
    STATIC_FILES[4]? = some fontRequest.url.href
      ∧ fontRequest.url.hostname = "fonts.gstatic.com"
      ∧ fetchRoute fontRequest = some (Strategy.networkFirst, DYNAMIC_CACHE)
      ∧ fetchRoute fontRequest ≠ some (Strategy.cacheFirst, STATIC_CACHE) := by
  decide

/-- C2, as stated, fails: the GET request of `https://sheetdb.io/` is answered
with `cacheFirst(request, STATIC_CACHE)` since its path is `/`; and on the same
host a path that contains the name of a font host or of the file host is
answered by the rule of that name. -/
theorem fetchRoute_data_api_root :
    sheetdbRootRequest.url.hostname = "sheetdb.io"
      ∧ fetchRoute sheetdbRootRequest = some (Strategy.cacheFirst, STATIC_CACHE)
      ∧ fetchRoute sheetdbRootRequest ≠ some (Strategy.networkFirst, DYNAMIC_CACHE)
      ∧ fetchRoute ⟨"GET", ⟨"https:", "sheetdb.io", "/fonts.googleapis.com", ""⟩⟩
          = some (Strategy.cacheFirst, STATIC_CACHE)
      ∧ fetchRoute ⟨"GET", ⟨"https:", "sheetdb.io", "/fonts.gstatic.com", ""⟩⟩
          = some (Strategy.cacheFirst, STATIC_CACHE)
      ∧ fetchRoute ⟨"GET", ⟨"https:", "sheetdb.io", "/dropboxusercontent.com", ""⟩⟩
          = some (Strategy.cacheFirst, DYNAMIC_CACHE) := by
  decide

/-- C2, amended: a GET request to the host `api.sheetbest.com` or `sheetdb.io`
(or a subdomain of the latter) whose path is not `/` and contains none of
`.html`, `fonts.googleapis.com`, `fonts.gstatic.com` and
`dropboxusercontent.com` is answered with
`networkFirst(request, DYNAMIC_CACHE)`. -/
theorem fetchRoute_data_api (protocol hostname pathname search : String)
    (_hhost : hostname = "api.sheetbest.com" ∨ hostname = "sheetdb.io"
      ∨ ∃ sub : String, hostname = sub ++ ".sheetdb.io")
    (hroot : pathname ≠ "/")
    (hhtml : includes pathname ".html" = false)
    (hgoogle : includes pathname "fonts.googleapis.com" = false)
    (hgstatic : includes pathname "fonts.gstatic.com" = false)
    (hdropbox : includes pathname "dropboxusercontent.com" = false) :
    fetchRoute ⟨"GET", ⟨protocol, hostname, pathname, search⟩⟩
        = some (Strategy.networkFirst, DYNAMIC_CACHE)
      ∧ DYNAMIC_CACHE = "winered-dynamic-v1.0.0"
      ∧ ∀ platform : Platform,
          fetchListener platform ⟨"GET", ⟨protocol, hostname, pathname, search⟩⟩
            = some (networkFirst platform ⟨"GET", ⟨protocol, hostname, pathname, search⟩⟩
                DYNAMIC_CACHE) := by
  have hroute : fetchRoute ⟨"GET", ⟨protocol, hostname, pathname, search⟩⟩
      = some (Strategy.networkFirst, DYNAMIC_CACHE) := by
    simp only [fetchRoute, ne_eq, not_true_eq_false, if_false, hroot, hhtml, hgoogle, hgstatic,
      hdropbox, Bool.false_eq_true, or_self, false_or]
    split <;> rfl
  refine ⟨hroute, rfl, fun platform => ?_⟩
  simp only [fetchListener, hroute, Option.map_some', Strategy.run]

/-- The amended rule of C2 at `https://api.sheetdb.io/data`. -/
theorem fetchRoute_data_api_witness :
    fetchRoute sheetdbDataRequest = some (Strategy.networkFirst, DYNAMIC_CACHE) :=
  (fetchRoute_data_api "https:" "api.sheetdb.io" "/data" ""
    (Or.inr (Or.inr ⟨"api", by decide⟩)) (by decide) (by decide) (by decide) (by decide)
    (by decide)).1

/-- C3: the product image `https://dl.dropboxusercontent.com/s/abc123/wine.jpg`
is on the file host and matches none of the earlier rules, yet its GET request
is answered with `networkFirst(request, DYNAMIC_CACHE)` and not with
`cacheFirst(request, DYNAMIC_CACHE)`: the file-host rule inspects the path,
which does not contain the host name. -/
theorem fetchRoute_file_host :
    dropboxRequest.url.hostname = "dl.dropboxusercontent.com"
      ∧ dropboxRequest.url.pathname ≠ "/"
      ∧ includes dropboxRequest.url.pathname ".html" = false
      ∧ fetchRoute dropboxRequest = some (Strategy.networkFirst, DYNAMIC_CACHE)
      ∧ fetchRoute dropboxRequest ≠ some (Strategy.cacheFirst, DYNAMIC_CACHE) := by
  decide

/-! ## Strategies -/

/-- Every run of `cacheFirst`, by the answers of the platform: the result and
the calls made. -/
theorem cacheFirst_run (platform : Platform) (request : Request) (cacheName : String) :
    (cacheFirst platform request cacheName).run =
      match platform.cachesMatch request with
      | .error _ => (.ok networkErrorResponse, [Effect.cachesMatch request])
      | .ok (some cachedResponse) => (.ok cachedResponse, [Effect.cachesMatch request])
      | .ok none =>
        match platform.fetch request with
        | .error _ =>
          (.ok networkErrorResponse, [Effect.cachesMatch request, Effect.fetch request])
        | .ok networkResponse =>
          if networkResponse.ok = true then
            match platform.cachesOpen cacheName with
            | some _ =>
              (.ok networkErrorResponse,
                [Effect.cachesMatch request, Effect.fetch request, Effect.cachesOpen cacheName])
            | none =>
              (.ok networkResponse,
                [Effect.cachesMatch request, Effect.fetch request, Effect.cachesOpen cacheName,
                  Effect.cachePut cacheName request networkResponse])
          else (.ok networkResponse, [Effect.cachesMatch request, Effect.fetch request]) := by
  cases hm : platform.cachesMatch request with
  | error e =>
    simp [cacheFirst, JS.run, JS.tryCatch, bind, JS.bind, cachesMatch, pure, JS.pure, hm]
  | ok found =>
    cases found with
    | some cached =>
      simp [cacheFirst, JS.run, JS.tryCatch, bind, JS.bind, cachesMatch, pure, JS.pure, hm]
    | none =>
      cases hf : platform.fetch request with
      | error e =>
        simp [cacheFirst, JS.run, JS.tryCatch, bind, JS.bind, cachesMatch, pure, JS.pure, fetch,
          hm, hf]
      | ok resp =>
        cases hok : resp.ok with
        | false =>
          simp [cacheFirst, JS.run, JS.tryCatch, bind, JS.bind, cachesMatch, pure, JS.pure, fetch,
            hm, hf, hok]
        | true =>
          cases ho : platform.cachesOpen cacheName with
          | some e =>
            simp [cacheFirst, JS.run, JS.tryCatch, bind, JS.bind, cachesMatch, pure, JS.pure,
              fetch, cachesOpen, cachePut, Response.clone, hm, hf, hok, ho]
          | none =>
            simp [cacheFirst, JS.run, JS.tryCatch, bind, JS.bind, cachesMatch, pure, JS.pure,
              fetch, cachesOpen, cachePut, Response.clone, hm, hf, hok, ho]

/-- The run of the `catch` block of `networkFirst` after the calls `before`. -/
theorem networkFirst_catch_run (platform : Platform) (request : Request) (before : List Effect) :
    (do
      let cachedResponse ← cachesMatch platform request
      match cachedResponse with
      | some cachedResponse => pure cachedResponse
      | none => pure networkErrorResponse : JS Response) before =
      match platform.cachesMatch request with
      | .error e => (.error e, before ++ [Effect.cachesMatch request])
      | .ok (some cachedResponse) => (.ok cachedResponse, before ++ [Effect.cachesMatch request])
      | .ok none => (.ok networkErrorResponse, before ++ [Effect.cachesMatch request]) := by
  cases hm : platform.cachesMatch request with
  | error e => simp [bind, JS.bind, cachesMatch, hm]
  | ok found =>
    cases found with
    | some cached => simp [bind, JS.bind, cachesMatch, pure, JS.pure, hm]
    | none => simp [bind, JS.bind, cachesMatch, pure, JS.pure, hm]

/-- Every run of `networkFirst` in which the fetch throws: the fetch, then the
lookup, whose answer decides the result. -/
theorem networkFirst_run_fetch_error (platform : Platform) (request : Request)
    (cacheName : String) (error : JsError) (hf : platform.fetch request = .error error) :
    (networkFirst platform request cacheName).run =
      match platform.cachesMatch request with
      | .error e => (.error e, [Effect.fetch request, Effect.cachesMatch request])
      | .ok (some cachedResponse) =>
        (.ok cachedResponse, [Effect.fetch request, Effect.cachesMatch request])
      | .ok none => (.ok networkErrorResponse, [Effect.fetch request, Effect.cachesMatch request]) := by
  have hcatch := networkFirst_catch_run platform request [Effect.fetch request]
  simp only [List.singleton_append] at hcatch
  rw [← hcatch]
  simp [networkFirst, JS.run, JS.tryCatch, bind, JS.bind, fetch, hf]

/-- Every run of `networkFirst` in which the fetch returns a response that
is not ok: the response is returned after the fetch alone. -/
theorem networkFirst_run_not_ok (platform : Platform) (request : Request)
    (cacheName : String) (networkResponse : Response)
    (hf : platform.fetch request = .ok networkResponse) (hok : networkResponse.ok = false) :
    (networkFirst platform request cacheName).run = (.ok networkResponse, [Effect.fetch request]) := by
  simp [networkFirst, JS.run, JS.tryCatch, bind, JS.bind, fetch, pure, JS.pure, hf, hok]

/-- Every run of `networkFirst` in which the fetch returns an ok response and
the cache opens: the response is put and returned. -/
theorem networkFirst_run_ok (platform : Platform) (request : Request)
    (cacheName : String) (networkResponse : Response)
    (hf : platform.fetch request = .ok networkResponse) (hok : networkResponse.ok = true)
    (ho : platform.cachesOpen cacheName = none) :
    (networkFirst platform request cacheName).run =
      (.ok networkResponse,
        [Effect.fetch request, Effect.cachesOpen cacheName,
          Effect.cachePut cacheName request networkResponse]) := by
  simp [networkFirst, JS.run, JS.tryCatch, bind, JS.bind, fetch, pure, JS.pure, cachesOpen,
    cachePut, Response.clone, hf, hok, ho]

/-- Every run of `networkFirst` in which the fetch returns an ok response and
opening the cache throws: no put, then the lookup, whose answer decides the
result. -/
theorem networkFirst_run_open_error (platform : Platform) (request : Request)
    (cacheName : String) (networkResponse : Response) (error : JsError)
    (hf : platform.fetch request = .ok networkResponse) (hok : networkResponse.ok = true)
    (ho : platform.cachesOpen cacheName = some error) :
    (networkFirst platform request cacheName).run =
      match platform.cachesMatch request with
      | .error e =>
        (.error e,
          [Effect.fetch request, Effect.cachesOpen cacheName, Effect.cachesMatch request])
      | .ok (some cachedResponse) =>
        (.ok cachedResponse,
          [Effect.fetch request, Effect.cachesOpen cacheName, Effect.cachesMatch request])
      | .ok none =>
        (.ok networkErrorResponse,
          [Effect.fetch request, Effect.cachesOpen cacheName, Effect.cachesMatch request]) := by
  have hcatch :=
    networkFirst_catch_run platform request [Effect.fetch request, Effect.cachesOpen cacheName]
  simp only [List.cons_append, List.nil_append] at hcatch
  rw [← hcatch]
  simp [networkFirst, JS.run, JS.tryCatch, bind, JS.bind, fetch, cachesOpen, hf, hok, ho]

/-- C5: `networkFirst` calls the network first, whatever the platform answers.
If the fetch throws it then looks the request up across all caches
(`caches.match`), and returns the cached entry when the lookup finds one and
the response with status 503 and body `Network error` when it finds none. -/
theorem networkFirst_network_then_cache (platform : Platform) (request : Request)
    (cacheName : String) :
    (networkFirst platform request cacheName).run.2.head? = some (Effect.fetch request)
      ∧ (∀ error : JsError, platform.fetch request = .error error →
          (networkFirst platform request cacheName).run.2
              = [Effect.fetch request, Effect.cachesMatch request]
            ∧ (∀ cachedResponse : Response,
                platform.cachesMatch request = .ok (some cachedResponse) →
                (networkFirst platform request cacheName).run.1 = .ok cachedResponse)
            ∧ (platform.cachesMatch request = .ok none →
                (networkFirst platform request cacheName).run.1 = .ok networkErrorResponse))
      ∧ networkErrorResponse = ⟨503, "Network error"⟩ := by
  refine ⟨?_, ?_, rfl⟩
  · cases hf : platform.fetch request with
    | error e =>
      rw [networkFirst_run_fetch_error platform request cacheName e hf]
      cases hm : platform.cachesMatch request with
      | error e' => rfl
      | ok found => cases found <;> rfl
    | ok resp =>
      cases hok : resp.ok with
      | false => rw [networkFirst_run_not_ok platform request cacheName resp hf hok]; rfl
      | true =>
        cases ho : platform.cachesOpen cacheName with
        | none => rw [networkFirst_run_ok platform request cacheName resp hf hok ho]; rfl
        | some e =>
          rw [networkFirst_run_open_error platform request cacheName resp e hf hok ho]
          cases hm : platform.cachesMatch request with
          | error e' => rfl
          | ok found => cases found <;> rfl
  · intro error hf
    rw [networkFirst_run_fetch_error platform request cacheName error hf]
    refine ⟨?_, ?_, ?_⟩
    · cases hm : platform.cachesMatch request with
      | error e' => rfl
      | ok found => cases found <;> rfl
    · intro cachedResponse hm
      rw [hm]
    · intro hm
      rw [hm]

/-- The scenario of C5: the fetch of `https://api.sheetdb.io/data` throws while
the dynamic cache holds an entry for it; `networkFirst` fetches, looks the
request up, and returns that entry, which is not the 503 response. -/
theorem networkFirst_network_then_cache_witness :
    (networkFirst (storePlatform dataStore offline) sheetdbDataRequest DYNAMIC_CACHE).run.2
        = [Effect.fetch sheetdbDataRequest, Effect.cachesMatch sheetdbDataRequest]
      ∧ (networkFirst (storePlatform dataStore offline) sheetdbDataRequest DYNAMIC_CACHE).run.1
        = .ok cachedData
      ∧ cachedData ≠ networkErrorResponse
      ∧ (networkFirst (storePlatform [] offline) sheetdbDataRequest DYNAMIC_CACHE).run.1
        = .ok networkErrorResponse :=
  ⟨((networkFirst_network_then_cache (storePlatform dataStore offline) sheetdbDataRequest
      DYNAMIC_CACHE).2.1 ⟨"Failed to fetch"⟩ rfl).1,
   ((networkFirst_network_then_cache (storePlatform dataStore offline) sheetdbDataRequest
      DYNAMIC_CACHE).2.1 ⟨"Failed to fetch"⟩ rfl).2.1 cachedData rfl,
   by decide,
   ((networkFirst_network_then_cache (storePlatform [] offline) sheetdbDataRequest
      DYNAMIC_CACHE).2.1 ⟨"Failed to fetch"⟩ rfl).2.2 rfl⟩

/-- C6: when the lookup across all caches (`caches.match`, which takes no cache
name) finds an entry for the request, `cacheFirst` returns that entry, whatever
cache name it was given, and the lookup is the only call it makes: no fetch
and no put. -/
theorem cacheFirst_cache_hit (platform : Platform) (request : Request) (cacheName : String)
    (cachedResponse : Response)
    (hhit : platform.cachesMatch request = .ok (some cachedResponse)) :
    (cacheFirst platform request cacheName).run.1 = .ok cachedResponse
      ∧ (cacheFirst platform request cacheName).run.2 = [Effect.cachesMatch request]
      ∧ (∀ fetched : Request, Effect.fetch fetched ∉ (cacheFirst platform request cacheName).run.2)
      ∧ puts (cacheFirst platform request cacheName).run.2 = [] := by
  rw [cacheFirst_run, hhit]
  refine ⟨rfl, rfl, ?_, rfl⟩
  intro fetched hmem
  simp at hmem

/-- The rule of C6 for an entry held by the static cache while `cacheFirst` is
given the dynamic cache name, over a network that would answer. -/
theorem cacheFirst_cache_hit_witness :
    storeMatch pageStore indexRequest = some cachedPage
      ∧ (cacheFirst (storePlatform pageStore online) indexRequest DYNAMIC_CACHE).run
        = (.ok cachedPage, [Effect.cachesMatch indexRequest]) :=
  ⟨by decide,
   Prod.ext
    (cacheFirst_cache_hit (storePlatform pageStore online) indexRequest DYNAMIC_CACHE cachedPage
      rfl).1
    (cacheFirst_cache_hit (storePlatform pageStore online) indexRequest DYNAMIC_CACHE cachedPage
      rfl).2.1⟩

/-- C7, as stated, fails: the fetch returns a response with status 200, whose
ok flag is true, but `caches.open` rejects, and neither `cacheFirst` (after a
miss) nor `networkFirst` issues a put. -/
theorem put_skipped_when_open_throws :
    (quotaPlatform online).cachesMatch sheetdbDataRequest = .ok none
      ∧ (quotaPlatform online).fetch sheetdbDataRequest = .ok ⟨200, "fresh"⟩
      ∧ Response.ok ⟨200, "fresh"⟩ = true
      ∧ puts (cacheFirst (quotaPlatform online) sheetdbDataRequest DYNAMIC_CACHE).run.2 = []
      ∧ puts (networkFirst (quotaPlatform online) sheetdbDataRequest DYNAMIC_CACHE).run.2 = [] := by
  refine ⟨rfl, rfl, rfl, ?_, ?_⟩ <;> decide

/-- C7, amended: when the fetch returns a response whose ok flag is true and
the cache opens under the given name, each strategy (`cacheFirst` after a
miss, `networkFirst` always) issues exactly one put, into the cache of that
name, keyed by the original request and storing the response; when the
response is not ok it issues no put. -/
theorem put_on_ok_response (platform : Platform) (request : Request) (cacheName : String)
    (networkResponse : Response) (hfetch : platform.fetch request = .ok networkResponse) :
    (platform.cachesMatch request = .ok none →
        (networkResponse.ok = true → platform.cachesOpen cacheName = none →
          puts (cacheFirst platform request cacheName).run.2
            = [(cacheName, request, networkResponse)])
        ∧ (networkResponse.ok = false →
          puts (cacheFirst platform request cacheName).run.2 = []))
      ∧ (networkResponse.ok = true → platform.cachesOpen cacheName = none →
          puts (networkFirst platform request cacheName).run.2
            = [(cacheName, request, networkResponse)])
      ∧ (networkResponse.ok = false →
          puts (networkFirst platform request cacheName).run.2 = []) := by
  refine ⟨fun hmiss => ⟨fun hok hopen => ?_, fun hok => ?_⟩, fun hok hopen => ?_, fun hok => ?_⟩
  · rw [cacheFirst_run, hmiss, hfetch]
    simp [hok, hopen, puts]
  · rw [cacheFirst_run, hmiss, hfetch]
    simp [hok, puts]
  · rw [networkFirst_run_ok platform request cacheName networkResponse hfetch hok hopen]
    simp [puts]
  · rw [networkFirst_run_not_ok platform request cacheName networkResponse hfetch hok]
    simp [puts]

/-- The amended rule of C7 on an empty cache store: a 200 response is put once
into the named cache by either strategy, a 404 response is not put. -/
theorem put_on_ok_response_witness :
    puts (cacheFirst (storePlatform [] online) sheetdbDataRequest DYNAMIC_CACHE).run.2
        = [(DYNAMIC_CACHE, sheetdbDataRequest, ⟨200, "fresh"⟩)]
      ∧ puts (networkFirst (storePlatform [] online) sheetdbDataRequest DYNAMIC_CACHE).run.2
        = [(DYNAMIC_CACHE, sheetdbDataRequest, ⟨200, "fresh"⟩)]
      ∧ puts (cacheFirst (storePlatform [] notFound) sheetdbDataRequest DYNAMIC_CACHE).run.2 = []
      ∧ puts (networkFirst (storePlatform [] notFound) sheetdbDataRequest DYNAMIC_CACHE).run.2
        = [] :=
  ⟨((put_on_ok_response (storePlatform [] online) sheetdbDataRequest DYNAMIC_CACHE
      ⟨200, "fresh"⟩ rfl).1 rfl).1 rfl rfl,
   (put_on_ok_response (storePlatform [] online) sheetdbDataRequest DYNAMIC_CACHE
      ⟨200, "fresh"⟩ rfl).2.1 rfl rfl,
   ((put_on_ok_response (storePlatform [] notFound) sheetdbDataRequest DYNAMIC_CACHE
      ⟨404, "Not Found"⟩ rfl).1 rfl).2 rfl,
   (put_on_ok_response (storePlatform [] notFound) sheetdbDataRequest DYNAMIC_CACHE
      ⟨404, "Not Found"⟩ rfl).2.2 rfl⟩

/-- The sibling path: `cacheFirst` completes with a response under every
behaviour of the platform, and a throwing lookup makes it the response with
status 503 and body `Network error`. -/
theorem cacheFirst_completes (platform : Platform) (request : Request) (cacheName : String) :
    (∃ response : Response, (cacheFirst platform request cacheName).run.1 = .ok response)
      ∧ (∀ error : JsError, platform.cachesMatch request = .error error →
          (cacheFirst platform request cacheName).run.1 = .ok networkErrorResponse) := by
  refine ⟨?_, ?_⟩
  · rw [cacheFirst_run]
    cases platform.cachesMatch request with
    | error e => exact ⟨_, rfl⟩
    | ok found =>
      cases found with
      | some cached => exact ⟨_, rfl⟩
      | none =>
        cases platform.fetch request with
        | error e => exact ⟨_, rfl⟩
        | ok resp =>
          cases hok : resp.ok with
          | false => exact ⟨resp, by simp [hok]⟩
          | true =>
            cases platform.cachesOpen cacheName with
            | some e => exact ⟨networkErrorResponse, by simp [hok]⟩
            | none => exact ⟨resp, by simp [hok]⟩
  · intro error hm
    rw [cacheFirst_run, hm]

/-- C8: when the fetch throws and the cache lookup throws as well,
`networkFirst` does not complete with a response: the lookup in its `catch`
block is outside any `try`, and the error of that lookup is propagated to the
caller instead of becoming the response with status 503 and body
`Network error`.  The same happens after a fetch that returned an ok response
when the cache open and then the lookup throw.  On the same platforms
`cacheFirst` does answer with that 503 response. -/
theorem networkFirst_propagates_lookup_error :
    (brokenStore offline).fetch sheetdbDataRequest = .error ⟨"Failed to fetch"⟩
      ∧ (brokenStore offline).cachesMatch sheetdbDataRequest = .error ⟨"UnknownError"⟩
      ∧ (networkFirst (brokenStore offline) sheetdbDataRequest DYNAMIC_CACHE).run
        = (.error ⟨"UnknownError"⟩,
            [Effect.fetch sheetdbDataRequest, Effect.cachesMatch sheetdbDataRequest])
      ∧ (networkFirst (brokenStore online) sheetdbDataRequest DYNAMIC_CACHE).run
        = (.error ⟨"UnknownError"⟩,
            [Effect.fetch sheetdbDataRequest, Effect.cachesOpen DYNAMIC_CACHE,
              Effect.cachesMatch sheetdbDataRequest])
      ∧ (cacheFirst (brokenStore offline) sheetdbDataRequest DYNAMIC_CACHE).run.1
        = .ok networkErrorResponse
      ∧ (cacheFirst (brokenStore online) sheetdbDataRequest DYNAMIC_CACHE).run.1
        = .ok networkErrorResponse
      ∧ networkErrorResponse = ⟨503, "Network error"⟩ :=
  ⟨rfl, rfl, rfl, rfl, rfl, rfl, rfl⟩

/-- C10, as stated, fails: after a miss the fetch returns a response with
status 200, opening the named cache throws, and `cacheFirst` returns the 503
response instead of the network response. -/
theorem cacheFirst_open_throws_503 :
    (quotaPlatform online).cachesMatch indexRequest = .ok none
      ∧ (quotaPlatform online).fetch indexRequest = .ok ⟨200, "fresh"⟩
      ∧ (cacheFirst (quotaPlatform online) indexRequest STATIC_CACHE).run.1
        = .ok networkErrorResponse
      ∧ (⟨200, "fresh"⟩ : Response) ≠ networkErrorResponse := by
  refine ⟨rfl, rfl, rfl, ?_⟩
  decide

/-- C10, amended: after a miss, when the fetch returns a response,
`cacheFirst` returns exactly that response if its status does not indicate
success, and also if it does and the named cache opens, whatever becomes of
the put; if opening the named cache throws it returns the 503 response. -/
theorem cacheFirst_returns_network_response (platform : Platform) (request : Request)
    (cacheName : String) (networkResponse : Response)
    (hmiss : platform.cachesMatch request = .ok none)
    (hfetch : platform.fetch request = .ok networkResponse) :
    (networkResponse.ok = false →
        (cacheFirst platform request cacheName).run.1 = .ok networkResponse)
      ∧ (networkResponse.ok = true → platform.cachesOpen cacheName = none →
        (cacheFirst platform request cacheName).run.1 = .ok networkResponse)
      ∧ (networkResponse.ok = true →
        ∀ error : JsError, platform.cachesOpen cacheName = some error →
        (cacheFirst platform request cacheName).run.1 = .ok networkErrorResponse) := by
  rw [cacheFirst_run, hmiss, hfetch]
  refine ⟨fun hok => ?_, fun hok ho => ?_, fun hok error ho => ?_⟩
  · simp [hok]
  · simp [hok, ho]
  · simp [hok, ho]

/-- The amended rule of C10 where every put rejects: a 200 response and a 404
response are both returned as they are. -/
theorem cacheFirst_returns_network_response_witness :
    (putRejects online).cachePut STATIC_CACHE indexRequest ⟨200, "fresh"⟩
        = .error ⟨"QuotaExceededError"⟩
      ∧ (cacheFirst (putRejects online) indexRequest STATIC_CACHE).run.1 = .ok ⟨200, "fresh"⟩
      ∧ (cacheFirst (putRejects notFound) indexRequest STATIC_CACHE).run.1
        = .ok ⟨404, "Not Found"⟩ :=
  ⟨rfl,
   (cacheFirst_returns_network_response (putRejects online) indexRequest STATIC_CACHE
      ⟨200, "fresh"⟩ rfl rfl).2.1 rfl rfl,
   (cacheFirst_returns_network_response (putRejects notFound) indexRequest STATIC_CACHE
      ⟨404, "Not Found"⟩ rfl rfl).1 rfl⟩

/-! ## Activation -/

/-- A name is handed to `caches.delete` exactly when it is among the existing
names and is neither current cache name. -/
theorem mem_activateDeletes (cacheNames : List String) (name : String) :
    name ∈ activateDeletes cacheNames
      ↔ name ∈ cacheNames ∧ name ≠ STATIC_CACHE ∧ name ≠ DYNAMIC_CACHE := by
  simp only [activateDeletes, List.mem_filterMap, activateDelete]
  constructor
  · rintro ⟨a, ha, h⟩
    split at h
    · rename_i hne
      cases h
      exact ⟨ha, hne⟩
    · cases h
  · rintro ⟨hmem, hne⟩
    exact ⟨name, hmem, by rw [if_pos hne]⟩

/-- After a sequence of resolved deletes, the names left are the names that
were not deleted. -/
theorem mem_foldl_cachesDelete (deletes cacheNames : List String) (name : String) :
    name ∈ deletes.foldl cachesDelete cacheNames ↔ name ∈ cacheNames ∧ name ∉ deletes := by
  induction deletes generalizing cacheNames with
  | nil => simp
  | cons d ds ih =>
    rw [List.foldl_cons, ih]
    simp only [cachesDelete, List.mem_filter, decide_eq_true_eq, List.mem_cons, not_or]
    tauto

/-- C9: once the activate listener has completed, every existing instance whose
name is neither `winered-static-v1.0.0` nor `winered-dynamic-v1.0.0` was handed
to `caches.delete` and is gone, the legacy `winered-dashboard-v1.0.0` among
them; no delete was issued for the two current names, and the instances under
them are still there. -/
theorem activateListener_prunes (cacheNames : List String) :
    (∀ name ∈ cacheNames, name ≠ "winered-static-v1.0.0" → name ≠ "winered-dynamic-v1.0.0" →
        name ∈ (activateListener cacheNames).1 ∧ name ∉ (activateListener cacheNames).2)
      ∧ (CACHE_NAME ∈ cacheNames →
        CACHE_NAME ∈ (activateListener cacheNames).1
          ∧ CACHE_NAME ∉ (activateListener cacheNames).2)
      ∧ STATIC_CACHE ∉ (activateListener cacheNames).1
      ∧ DYNAMIC_CACHE ∉ (activateListener cacheNames).1
      ∧ (∀ name ∈ cacheNames, name = STATIC_CACHE ∨ name = DYNAMIC_CACHE →
        name ∈ (activateListener cacheNames).2) := by
  have hstale : ∀ name ∈ cacheNames, name ≠ STATIC_CACHE → name ≠ DYNAMIC_CACHE →
      name ∈ (activateListener cacheNames).1 ∧ name ∉ (activateListener cacheNames).2 := by
    intro name hmem hs hd
    have hdel : name ∈ activateDeletes cacheNames :=
      (mem_activateDeletes cacheNames name).mpr ⟨hmem, hs, hd⟩
    refine ⟨hdel, ?_⟩
    simp only [activateListener, mem_foldl_cachesDelete]
    exact fun h => h.2 hdel
  refine ⟨hstale, fun hmem => hstale CACHE_NAME hmem (by decide) (by decide), ?_, ?_, ?_⟩
  · intro h
    exact ((mem_activateDeletes cacheNames STATIC_CACHE).mp h).2.1 rfl
  · intro h
    exact ((mem_activateDeletes cacheNames DYNAMIC_CACHE).mp h).2.2 rfl
  · intro name hmem hcur
    simp only [activateListener, mem_foldl_cachesDelete]
    refine ⟨hmem, fun hdel => ?_⟩
    have h := (mem_activateDeletes cacheNames name).mp hdel
    rcases hcur with hcur | hcur
    · exact h.2.1 hcur
    · exact h.2.2 hcur

/-- The rule of C9 on a store holding the legacy cache, a static cache of an
older version and the two current caches: the first two are deleted, the
current ones are left. -/
theorem activateListener_prunes_witness :
    activateListener
        ["winered-dashboard-v1.0.0", "winered-static-v0.9.0", "winered-static-v1.0.0",
          "winered-dynamic-v1.0.0"]
        = (["winered-dashboard-v1.0.0", "winered-static-v0.9.0"],
            ["winered-static-v1.0.0", "winered-dynamic-v1.0.0"])
      ∧ ("winered-dashboard-v1.0.0"
          ∈ (activateListener
              ["winered-dashboard-v1.0.0", "winered-static-v0.9.0", "winered-static-v1.0.0",
                "winered-dynamic-v1.0.0"]).1
        ∧ "winered-dashboard-v1.0.0"
          ∉ (activateListener
              ["winered-dashboard-v1.0.0", "winered-static-v0.9.0", "winered-static-v1.0.0",
                "winered-dynamic-v1.0.0"]).2) :=
  ⟨by decide,
   (activateListener_prunes
      ["winered-dashboard-v1.0.0", "winered-static-v0.9.0", "winered-static-v1.0.0",
        "winered-dynamic-v1.0.0"]).2.1 (by decide)⟩

end WineRedDash
